import Mathlib

set_option linter.unusedVariables false

namespace UsersStub

/-- OS-native byte-string name (the Rust side stores names as reference-counted
OsStr data; we model a name as its list of bytes). -/
abbrev Name := List Nat

/-- Platform error code (errno value carried by a system error). -/
abbrev Errno := Nat

/-- Embedding of the Rust io result type: ok value or a system error with errno. -/
abbrev SysResult (α : Type) := Except Errno α

/-- Embedding of src/src/base.rs struct User: fields uid, primary_group,
extras (os::UserExtras = unit in this build) and the name. -/
structure User where
  uid : Nat
  primary_group : Nat
  extras : Unit
  name_arc : Name
deriving DecidableEq

/-- Embedding of src/src/base.rs struct Group: fields gid, extras
(os::GroupExtras = unit in this build) and the name. -/
structure Group where
  gid : Nat
  extras : Unit
  name_arc : Name
deriving DecidableEq

/-- src/src/base.rs User::new — builds the value from the arguments and the
default (unit) extras; a pure function of its arguments, with no environment
or state parameter, mirroring that the source performs no OS interaction. -/
def User.new (uid : Nat) (name : Name) (primary_group : Nat) : User :=
  ⟨uid, primary_group, (), name⟩

/-- src/src/base.rs User::name — returns the stored name. -/
def User.name (u : User) : Name :=
  u.name_arc

/-- src/src/base.rs User::primary_group_id — returns the stored primary group id. -/
def User.primary_group_id (u : User) : Nat :=
  u.primary_group

/-- src/src/base.rs Group::new — pure, like User::new. -/
def Group.new (gid : Nat) (name : Name) : Group :=
  ⟨gid, (), name⟩

/-- src/src/base.rs Group::name — returns the stored name. -/
def Group.name (g : Group) : Name :=
  g.name_arc

/-- The host identity database (the collaborator the spec calls the Identity
Database Oracle). The source of this build never consults it; it is threaded
through the embedding so that claims about seeded databases can be stated. -/
structure IdentityDb where
  users : List User
  groups : List Group
deriving DecidableEq

/-- The credential mutation oracle: behaviour of the platform setreuid and
setregid calls declared (but never invoked) in src/src/switch.rs. A result of
none means success, some e means rejection with errno e. -/
structure MutOracle where
  setreuid : Nat → Nat → Option Errno
  setregid : Nat → Nat → Option Errno

/-- The full external environment: identity database plus mutation oracle. -/
structure Env where
  db : IdentityDb
  sys : MutOracle

/-- A credential-changed event, as observable by a test oracle: which half of
the effective identity was changed. -/
inductive CredEvent where
  | uidChanged : CredEvent
  | gidChanged : CredEvent
deriving DecidableEq

/-- Process-global state: real/effective uid and gid, the ordered list of
credential-changed events that have occurred, and a count of identity-oracle
calls made so far (for the no-oracle-call observations). -/
structure ProcState where
  ruid : Nat
  euid : Nat
  rgid : Nat
  egid : Nat
  trace : List CredEvent
  oracleCalls : Nat
deriving DecidableEq

/-- src/src/base.rs get_user_by_uid, documented and implemented as const None:
the body is literally None, touching neither the database nor the state. -/
def get_user_by_uid (env : Env) (s : ProcState) (uid : Nat) : Option User × ProcState :=
  (none, s)

/-- src/src/base.rs get_user_by_name: const None. -/
def get_user_by_name (env : Env) (s : ProcState) (username : Name) : Option User × ProcState :=
  (none, s)

/-- src/src/base.rs get_group_by_gid: const None. -/
def get_group_by_gid (env : Env) (s : ProcState) (gid : Nat) : Option Group × ProcState :=
  (none, s)

/-- src/src/base.rs get_group_by_name: const None. -/
def get_group_by_name (env : Env) (s : ProcState) (groupname : Name) : Option Group × ProcState :=
  (none, s)

/-- src/src/base.rs get_current_uid: const 0. -/
def get_current_uid (env : Env) (s : ProcState) : Nat × ProcState :=
  (0, s)

/-- src/src/base.rs get_current_username: const None. -/
def get_current_username (env : Env) (s : ProcState) : Option Name × ProcState :=
  (none, s)

/-- src/src/base.rs get_effective_uid: const 0. -/
def get_effective_uid (env : Env) (s : ProcState) : Nat × ProcState :=
  (0, s)

/-- src/src/base.rs get_effective_username: const None. -/
def get_effective_username (env : Env) (s : ProcState) : Option Name × ProcState :=
  (none, s)

/-- src/src/base.rs get_current_gid: const 0. -/
def get_current_gid (env : Env) (s : ProcState) : Nat × ProcState :=
  (0, s)

/-- src/src/base.rs get_current_groupname: const None. -/
def get_current_groupname (env : Env) (s : ProcState) : Option Name × ProcState :=
  (none, s)

/-- src/src/base.rs get_effective_gid: const 0. -/
def get_effective_gid (env : Env) (s : ProcState) : Nat × ProcState :=
  (0, s)

/-- src/src/base.rs get_effective_groupname: const None. -/
def get_effective_groupname (env : Env) (s : ProcState) : Option Name × ProcState :=
  (none, s)

/-- src/src/base.rs group_access_list: const Ok of the empty vector. -/
def group_access_list (env : Env) (s : ProcState) : SysResult (List Group) × ProcState :=
  (Except.ok [], s)

/-- src/src/base.rs get_user_groups: const None. -/
def get_user_groups (env : Env) (s : ProcState) (username : Name) (gid : Nat) :
    Option (List Group) × ProcState :=
  (none, s)

/-- src/src/base.rs all_users: the empty iterator. -/
def all_users (env : Env) (s : ProcState) : List User × ProcState :=
  ([], s)

/-- src/src/base.rs User::groups — delegates to get_user_groups with the name
and primary group id, exactly as lines 135-137 of base.rs do. -/
def User.groups (env : Env) (s : ProcState) (u : User) : Option (List Group) × ProcState :=
  get_user_groups env s (u.name) (u.primary_group_id)

/-- src/src/switch.rs set_current_uid: const Ok, no oracle call, no state change. -/
def set_current_uid (env : Env) (s : ProcState) (uid : Nat) : SysResult Unit × ProcState :=
  (Except.ok (), s)

/-- src/src/switch.rs set_current_gid: const Ok. -/
def set_current_gid (env : Env) (s : ProcState) (gid : Nat) : SysResult Unit × ProcState :=
  (Except.ok (), s)

/-- src/src/switch.rs set_effective_uid: const Ok. -/
def set_effective_uid (env : Env) (s : ProcState) (uid : Nat) : SysResult Unit × ProcState :=
  (Except.ok (), s)

/-- src/src/switch.rs set_effective_gid: const Ok. -/
def set_effective_gid (env : Env) (s : ProcState) (gid : Nat) : SysResult Unit × ProcState :=
  (Except.ok (), s)

/-- src/src/switch.rs set_both_uid: const Ok. -/
def set_both_uid (env : Env) (s : ProcState) (ruid euid : Nat) : SysResult Unit × ProcState :=
  (Except.ok (), s)

/-- src/src/switch.rs set_both_gid: const Ok. -/
def set_both_gid (env : Env) (s : ProcState) (rgid egid : Nat) : SysResult Unit × ProcState :=
  (Except.ok (), s)

/-- src/src/switch.rs SwitchUserGuard: an empty struct with no Drop impl. -/
structure SwitchUserGuard where
deriving DecidableEq

/-- Releasing the guard. The Rust type has no Drop implementation (the source
comment says it is a nop on drop, too), so releasing it performs no credential
change and emits no event: the state is returned unchanged. -/
def SwitchUserGuard.drop (env : Env) (s : ProcState) (g : SwitchUserGuard) : ProcState :=
  s

/-- src/src/switch.rs switch_user_group: const Ok of an (empty) guard; neither
the mutation oracle nor the credential state is touched. -/
def switch_user_group (env : Env) (s : ProcState) (uid gid : Nat) :
    SysResult SwitchUserGuard × ProcState :=
  (Except.ok ⟨⟩, s)

/-- An empty identity database. -/
def emptyDb : IdentityDb :=
  ⟨[], []⟩

/-- A mutation oracle that accepts every change. -/
def okOracle : MutOracle :=
  ⟨fun _ _ => none, fun _ _ => none⟩

/-- A mutation oracle configured to reject every change with errno 1 (EPERM). -/
def rejectingOracle : MutOracle :=
  ⟨fun _ _ => some 1, fun _ _ => some 1⟩

/-- Environment with an empty database and an accepting oracle. -/
def env0 : Env :=
  ⟨emptyDb, okOracle⟩

/-- Environment whose mutation oracle rejects every change. -/
def envRej : Env :=
  ⟨emptyDb, rejectingOracle⟩

/-- The bytes of the name stevedore. -/
def stevedore : Name :=
  [115, 116, 101, 118, 101, 100, 111, 114, 101]

/-- The bytes of the name crew. -/
def crew : Name :=
  [99, 114, 101, 119]

/-- The bytes of the name nonexistent. -/
def nonexistent : Name :=
  [110, 111, 110, 101, 120, 105, 115, 116, 101, 110, 116]

/-- The identity database seeded as in the concrete scenario of the spec:
user {uid 501, name stevedore, primary group 100} and group {gid 100, name crew}. -/
def seededDb : IdentityDb :=
  ⟨[User.new 501 stevedore 100], [Group.new 100 crew]⟩

/-- Environment holding the seeded database and an accepting oracle. -/
def envSeeded : Env :=
  ⟨seededDb, okOracle⟩

/-- A concrete starting process state: real uid 10, effective uid 11, real gid
20, effective gid 21, empty event trace, no oracle calls yet. -/
def s0 : ProcState :=
  ⟨10, 11, 20, 21, [], 0⟩

/-- C1 counterexample: at the concrete start s0 (effective uid 11, gid 21) and
target (5, 6), calling switch_user_group and releasing the guard does leave the
effective uid and gid at (11, 21), but the claimed credential-changed events do
not occur: the switch emits no group-then-user event pair and the release emits
no user-then-group pair (the trace stays empty), so the claim as stated fails. -/
theorem C1_counterexample :
    ¬ ((SwitchUserGuard.drop env0 (switch_user_group env0 s0 5 6).2 ⟨⟩).euid = s0.euid ∧
       (SwitchUserGuard.drop env0 (switch_user_group env0 s0 5 6).2 ⟨⟩).egid = s0.egid ∧
       (switch_user_group env0 s0 5 6).2.trace =
         s0.trace ++ [CredEvent.gidChanged, CredEvent.uidChanged] ∧
       (SwitchUserGuard.drop env0 (switch_user_group env0 s0 5 6).2 ⟨⟩).trace =
         (switch_user_group env0 s0 5 6).2.trace ++
           [CredEvent.uidChanged, CredEvent.gidChanged]) := by
  intro h
  have h3 := h.2.2.1
  simp [switch_user_group, s0] at h3

/-- C1 amended: for every environment, starting state and target,
switch_user_group succeeds and leaves the credential state exactly unchanged,
and releasing the returned guard changes nothing either; hence the effective
uid and gid after release equal the starting (uid0, gid0) — trivially, because
no credential change is ever applied — and no credential-changed events occur
in either direction. -/
theorem C1_switch_restore (env : Env) (s : ProcState) (uid gid : Nat) :
    (switch_user_group env s uid gid).1 = Except.ok ⟨⟩ ∧
    (switch_user_group env s uid gid).2 = s ∧
    (SwitchUserGuard.drop env (switch_user_group env s uid gid).2 ⟨⟩).euid = s.euid ∧
    (SwitchUserGuard.drop env (switch_user_group env s uid gid).2 ⟨⟩).egid = s.egid ∧
    (SwitchUserGuard.drop env (switch_user_group env s uid gid).2 ⟨⟩).trace = s.trace :=
  ⟨rfl, rfl, rfl, rfl, rfl⟩

/-- C2 counterexample: with the database seeded exactly as the claim demands
(user 501 stevedore with primary group 100, group 100 crew), get_user_by_uid 501
still returns none, so no user named stevedore is returned and the claimed
scenario fails (the by-name absence part alone does hold). -/
theorem C2_counterexample :
    ¬ ((∃ u, (get_user_by_uid envSeeded s0 501).1 = some u ∧ u.name = stevedore) ∧
       (∃ g, (get_group_by_gid envSeeded s0 100).1 = some g ∧ g.name = crew) ∧
       (get_user_by_name envSeeded s0 nonexistent).1 = none) := by
  intro h
  obtain ⟨⟨u, hu, _⟩, _, _⟩ := h
  simp [get_user_by_uid] at hu

/-- C2 amended: even when the identity database does contain the user
{uid 501, name stevedore, primary group 100} and the group {gid 100, name crew},
get_user_by_uid 501 returns absent and get_group_by_gid 100 returns absent —
the lookups of this build consult no database — while get_user_by_name of
"nonexistent" returns absent as the claim states. -/
theorem C2_seeded_lookups (env : Env) (s : ProcState)
    (hu : User.new 501 stevedore 100 ∈ env.db.users)
    (hg : Group.new 100 crew ∈ env.db.groups) :
    (get_user_by_uid env s 501).1 = none ∧
    (get_group_by_gid env s 100).1 = none ∧
    (get_user_by_name env s nonexistent).1 = none :=
  ⟨rfl, rfl, rfl⟩

/-- C2 witness: the seeded environment satisfies both membership hypotheses and
the three lookups all come back absent there. -/
theorem C2_seeded_lookups_witness :
    User.new 501 stevedore 100 ∈ envSeeded.db.users ∧
    Group.new 100 crew ∈ envSeeded.db.groups ∧
    ((get_user_by_uid envSeeded s0 501).1 = none ∧
     (get_group_by_gid envSeeded s0 100).1 = none ∧
     (get_user_by_name envSeeded s0 nonexistent).1 = none) :=
  ⟨by decide, by decide, C2_seeded_lookups envSeeded s0 (by decide) (by decide)⟩

/-- C3: the synthetic constructors give back exactly their arguments through
the accessors. They are pure functions of their arguments (their embedding
takes no environment or state, because the source bodies perform no OS call),
so construction performs no oracle interaction. -/
theorem C3_synthetic_accessors (uid gid : Nat) (name : Name) :
    (User.new uid name gid).uid = uid ∧
    (User.new uid name gid).name = name ∧
    (User.new uid name gid).primary_group_id = gid ∧
    (Group.new gid name).gid = gid ∧
    (Group.new gid name).name = name :=
  ⟨rfl, rfl, rfl, rfl, rfl⟩

/-- C4: for every name containing a null byte, both by-name lookups return
absent (their return type has no error alternative, so no error can be raised,
and none is returned rather than any truncated match). In this build the
lookups return absent for every name, in particular for these. -/
theorem C4_null_byte_lookups (env : Env) (s : ProcState) (name : Name)
    (h : 0 ∈ name) :
    (get_user_by_name env s name).1 = none ∧
    (get_group_by_name env s name).1 = none :=
  ⟨rfl, rfl⟩

/-- C4 witness: the concrete name [97, 0] contains a null byte and both
lookups return absent on it. -/
theorem C4_null_byte_lookups_witness :
    0 ∈ ([97, 0] : Name) ∧
    ((get_user_by_name env0 s0 [97, 0]).1 = none ∧
     (get_group_by_name env0 s0 [97, 0]).1 = none) :=
  ⟨by decide, C4_null_byte_lookups env0 s0 [97, 0] (by decide)⟩

/-- C5 counterexample: with the mutation oracle configured to reject the gid
half (setregid of the current real gid to target 6 fails with errno 1),
switch_user_group does not return an error at all — it returns success — so
the claim, which speaks of the state after the call returns its error, fails
as stated. -/
theorem C5_counterexample :
    envRej.sys.setregid s0.rgid 6 = some 1 ∧
    ¬ ((∃ e, (switch_user_group envRej s0 5 6).1 = Except.error e) ∧
       (switch_user_group envRej s0 5 6).2.euid = s0.euid) := by
  refine ⟨rfl, ?_⟩
  intro h
  obtain ⟨⟨e, he⟩, _⟩ := h
  simp [switch_user_group] at he

/-- C5 amended: if the mutation oracle is configured to fail on the gid half of
switch_user_group, the call nevertheless returns success (the oracle is never
consulted) and the effective uid — indeed the entire credential state — is
unchanged; so no partially applied multi-ID change is ever left in place. -/
theorem C5_failure_atomicity (env : Env) (s : ProcState) (uid gid : Nat)
    (h : env.sys.setregid s.rgid gid ≠ none) :
    (switch_user_group env s uid gid).1 = Except.ok ⟨⟩ ∧
    (switch_user_group env s uid gid).2.euid = s.euid ∧
    (switch_user_group env s uid gid).2 = s :=
  ⟨rfl, rfl, rfl⟩

/-- C5 witness: the rejecting oracle fails the gid half at the concrete input,
and the call returns success with the state unchanged. -/
theorem C5_failure_atomicity_witness :
    envRej.sys.setregid s0.rgid 6 ≠ none ∧
    ((switch_user_group envRej s0 5 6).1 = Except.ok ⟨⟩ ∧
     (switch_user_group envRej s0 5 6).2.euid = s0.euid ∧
     (switch_user_group envRej s0 5 6).2 = s0) :=
  ⟨Option.some_ne_none 1, C5_failure_atomicity envRej s0 5 6 (Option.some_ne_none 1)⟩

/-- C6 counterexample: the mutation oracle rejects the change (setreuid to 42
fails with errno 1), yet set_current_uid returns ok rather than a system-error
value — the rejection is not surfaced — so the claim fails as stated. The same
holds for every other switch function, all of which are constant ok. -/
theorem C6_counterexample :
    envRej.sys.setreuid s0.ruid 42 = some 1 ∧
    (set_current_uid envRej s0 42).1 = Except.ok () ∧
    ¬ (∃ e, (set_current_uid envRej s0 42).1 = Except.error e) := by
  refine ⟨rfl, rfl, ?_⟩
  intro h
  obtain ⟨e, he⟩ := h
  simp [set_current_uid] at he

/-- C6 amended: even when the mutation oracle rejects the requested changes,
every switch function returns success: in this build the switch functions never
consult the oracle, so no system error is ever produced (and hence none is ever
swallowed — failures simply cannot occur). -/
theorem C6_no_error_surfaced (env : Env) (s : ProcState) (a b : Nat)
    (hu : env.sys.setreuid s.ruid a ≠ none)
    (hg : env.sys.setregid s.rgid a ≠ none) :
    (set_current_uid env s a).1 = Except.ok () ∧
    (set_current_gid env s a).1 = Except.ok () ∧
    (set_effective_uid env s a).1 = Except.ok () ∧
    (set_effective_gid env s a).1 = Except.ok () ∧
    (set_both_uid env s a b).1 = Except.ok () ∧
    (set_both_gid env s a b).1 = Except.ok () ∧
    (switch_user_group env s a b).1 = Except.ok ⟨⟩ :=
  ⟨rfl, rfl, rfl, rfl, rfl, rfl, rfl⟩

/-- C6 witness: the rejecting oracle refuses both halves at the concrete input
and every switch function still returns success there. -/
theorem C6_no_error_surfaced_witness :
    envRej.sys.setreuid s0.ruid 42 ≠ none ∧
    envRej.sys.setregid s0.rgid 42 ≠ none ∧
    ((set_current_uid envRej s0 42).1 = Except.ok () ∧
     (set_current_gid envRej s0 42).1 = Except.ok () ∧
     (set_effective_uid envRej s0 42).1 = Except.ok () ∧
     (set_effective_gid envRej s0 42).1 = Except.ok () ∧
     (set_both_uid envRej s0 42 43).1 = Except.ok () ∧
     (set_both_gid envRej s0 42 43).1 = Except.ok () ∧
     (switch_user_group envRej s0 42 43).1 = Except.ok ⟨⟩) :=
  ⟨Option.some_ne_none 1, Option.some_ne_none 1,
   C6_no_error_surfaced envRej s0 42 43 (Option.some_ne_none 1) (Option.some_ne_none 1)⟩

/-- C7: User::groups returns the absent option (the soft-unavailable result,
never a crash or a propagated error) for every user in every environment, and
group_access_list returns the successful empty list rather than an error; in
both cases the state is untouched. -/
theorem C7_soft_unavailable (env : Env) (s : ProcState) (u : User) :
    (User.groups env s u).1 = none ∧
    (User.groups env s u).2 = s ∧
    (group_access_list env s).1 = Except.ok [] ∧
    (group_access_list env s).2 = s :=
  ⟨rfl, rfl, rfl, rfl⟩

/-- C8: looking the same key up twice through each lookup function yields equal
results both times (absent both times, in this build), and the second call
performs no oracle call: the oracle-call counter after the second call equals
the counter after the first. -/
theorem C8_idempotent_lookups (env : Env) (s : ProcState) (uid gid : Nat)
    (uname gname : Name) :
    (get_user_by_uid env (get_user_by_uid env s uid).2 uid).1 =
      (get_user_by_uid env s uid).1 ∧
    (get_user_by_uid env s uid).1 = none ∧
    (get_user_by_uid env (get_user_by_uid env s uid).2 uid).2.oracleCalls =
      (get_user_by_uid env s uid).2.oracleCalls ∧
    (get_user_by_name env (get_user_by_name env s uname).2 uname).1 =
      (get_user_by_name env s uname).1 ∧
    (get_user_by_name env (get_user_by_name env s uname).2 uname).2.oracleCalls =
      (get_user_by_name env s uname).2.oracleCalls ∧
    (get_group_by_gid env (get_group_by_gid env s gid).2 gid).1 =
      (get_group_by_gid env s gid).1 ∧
    (get_group_by_gid env s gid).1 = none ∧
    (get_group_by_gid env (get_group_by_gid env s gid).2 gid).2.oracleCalls =
      (get_group_by_gid env s gid).2.oracleCalls ∧
    (get_group_by_name env (get_group_by_name env s gname).2 gname).1 =
      (get_group_by_name env s gname).1 ∧
    (get_group_by_name env (get_group_by_name env s gname).2 gname).2.oracleCalls =
      (get_group_by_name env s gname).2.oracleCalls :=
  ⟨rfl, rfl, rfl, rfl, rfl, rfl, rfl, rfl, rfl, rfl⟩

/-- C9: in this build configuration the four credential getters return 0 on
every call, for every environment and every actual process credential state. -/
theorem C9_constant_zero_ids (env : Env) (s : ProcState) :
    (get_current_uid env s).1 = 0 ∧
    (get_effective_uid env s).1 = 0 ∧
    (get_current_gid env s).1 = 0 ∧
    (get_effective_gid env s).1 = 0 :=
  ⟨rfl, rfl, rfl, rfl⟩

/-- C10: every switch operation returns success for every argument value and
leaves the state untouched, and releasing the guard returned by
switch_user_group performs no credential change either — so the return value
cannot distinguish an applied switch from a no-op. -/
theorem C10_switch_always_succeeds (env : Env) (s : ProcState) (a b : Nat) :
    set_current_uid env s a = (Except.ok (), s) ∧
    set_current_gid env s a = (Except.ok (), s) ∧
    set_effective_uid env s a = (Except.ok (), s) ∧
    set_effective_gid env s a = (Except.ok (), s) ∧
    set_both_uid env s a b = (Except.ok (), s) ∧
    set_both_gid env s a b = (Except.ok (), s) ∧
    switch_user_group env s a b = (Except.ok ⟨⟩, s) ∧
    (∀ g, SwitchUserGuard.drop env s g = s) :=
  ⟨rfl, rfl, rfl, rfl, rfl, rfl, rfl, fun g => rfl⟩

end UsersStub
